import Mathlib

/-
Verification of the hybrid SQL Server to PostgreSQL sync engine
(etl/hybrid_sync.py and etl/monitoring.py).

Shallow embedding: the pure decision logic of the engine is translated to
Lean functions; database effects (reads, appends, cursor rows) are made
explicit as state passing; fallible steps (ODBC reads, destination loads)
are parameters of type Except or Bool oracles.  Row counts are Nat, the
consistency percentage is an exact rational, cursor column values are Int.
-/

namespace HybridSync

/- ===== MigrationMonitor.check_data_consistency (monitoring.py 224-265) ===== -/

/-- Result row written by check_data_consistency plus the alert it emits
    when the status is INCONSISTENT.  Mirrors monitoring.py lines 224-265:
    missing_rows = max(0, source_count - target_count),
    extra_rows = max(0, target_count - source_count),
    consistency_percentage = target/source*100 if source_count > 0 else 0,
    status = CONSISTENT iff the counts are equal, and an alert of severity
    HIGH (if percentage < 95) or MEDIUM is logged when INCONSISTENT. -/
structure ConsistencyCheckResult where
  source_row_count : Nat
  target_row_count : Nat
  missing_rows : Int
  extra_rows : Int
  consistency_percentage : ℚ
  status : String
  alert_severity : Option String
deriving DecidableEq

/-- Shallow embedding of MigrationMonitor.check_data_consistency. -/
def check_data_consistency (source_count target_count : Nat) : ConsistencyCheckResult :=
  let missing_rows : Int := max 0 ((source_count : Int) - (target_count : Int))
  let extra_rows : Int := max 0 ((target_count : Int) - (source_count : Int))
  let consistency_percentage : ℚ :=
    if source_count > 0 then (target_count : ℚ) / (source_count : ℚ) * 100 else 0
  let status : String := if source_count = target_count then "CONSISTENT" else "INCONSISTENT"
  let alert_severity : Option String :=
    if status = "INCONSISTENT" then
      some (if consistency_percentage < 95 then "HIGH" else "MEDIUM")
    else none
  { source_row_count := source_count
    target_row_count := target_count
    missing_rows := missing_rows
    extra_rows := extra_rows
    consistency_percentage := consistency_percentage
    status := status
    alert_severity := alert_severity }

/- ===== overall_status derivation (hybrid_sync.py 824-829) ===== -/

/-- Shallow embedding of the overall_status expression of
    process_sql_server_hybrid (hybrid_sync.py lines 824-829). -/
def overall_status (successful_syncs failed_syncs : Nat) : String :=
  if failed_syncs = 0 then "SUCCESS"
  else if successful_syncs > 0 then "PARTIAL"
  else "FAILED"

/- ===== update_sync_status (hybrid_sync.py 237-270) ===== -/

/-- One row of the sync_database_status table.  Timestamps are Nat. -/
structure SyncStatusRow where
  last_full_sync : Option Nat
  last_incremental_sync : Option Nat
  sync_status : String
  created_at : Nat
  updated_at : Nat
deriving DecidableEq

/-- Shallow embedding of update_sync_status (hybrid_sync.py 237-270).
    The argument existing is the row currently stored for
    (server_name, database_name): none models the INSERT case (the column
    not named in the INSERT takes its NULL default), some r models the
    ON CONFLICT DO UPDATE case, which sets exactly the columns listed in
    the DO UPDATE SET clause and keeps every other column of r. -/
def update_sync_status (existing : Option SyncStatusRow) (sync_type : String)
    (sync_status : String) (now : Nat) : SyncStatusRow :=
  if sync_type = "full" then
    match existing with
    | none =>
      { last_full_sync := some now, last_incremental_sync := none,
        sync_status := sync_status, created_at := now, updated_at := now }
    | some r =>
      { r with last_full_sync := some now, sync_status := sync_status, updated_at := now }
  else
    match existing with
    | none =>
      { last_full_sync := none, last_incremental_sync := some now,
        sync_status := sync_status, created_at := now, updated_at := now }
    | some r =>
      { r with last_incremental_sync := some now, sync_status := sync_status, updated_at := now }

/- ===== Strategy selection (hybrid_sync.py 271-326 and 556-575) ===== -/

/-- One row of INFORMATION_SCHEMA.COLUMNS for the probed table. -/
structure ColumnMeta where
  column_name : String
  data_type : String
deriving DecidableEq

/-- One row of INFORMATION_SCHEMA.KEY_COLUMN_USAGE for the probed table. -/
structure KeyColumnUsageRow where
  constraint_name : String
  column_name : String
  ordinal_position : Nat
deriving DecidableEq

/-- Source table metadata visible to the strategy probes. -/
structure TableMeta where
  key_column_usage : List KeyColumnUsageRow
  columns : List ColumnMeta
deriving DecidableEq

/-- Insertion step for sorting key-column-usage rows by ordinal position,
    modelling ORDER BY ORDINAL_POSITION. -/
def insert_by_ordinal (r : KeyColumnUsageRow) :
    List KeyColumnUsageRow → List KeyColumnUsageRow
  | [] => [r]
  | x :: xs =>
    if r.ordinal_position ≤ x.ordinal_position then r :: x :: xs
    else x :: insert_by_ordinal r xs

/-- Stable sort by ordinal position, modelling ORDER BY ORDINAL_POSITION. -/
def sort_by_ordinal : List KeyColumnUsageRow → List KeyColumnUsageRow
  | [] => []
  | x :: xs => insert_by_ordinal x (sort_by_ordinal xs)

/-- Test for CONSTRAINT_NAME LIKE the pattern PK_ percent: the name starts
    with the three characters P, K, underscore.  Expressed on the character
    list so that concrete instances reduce in the kernel. -/
def matches_pk_pattern (s : String) : Bool :=
  "PK_".data.isPrefixOf s.data

/-- Shallow embedding of get_primary_key_info (hybrid_sync.py 271-288): the
    column names of the KEY_COLUMN_USAGE rows whose constraint name matches
    LIKE PK_ percent, ordered by ordinal position. -/
def get_primary_key_info (t : TableMeta) : List String :=
  (sort_by_ordinal (t.key_column_usage.filter
      (fun r => matches_pk_pattern r.constraint_name))).map
    (fun r => r.column_name)

/-- The DATA_TYPE list of get_timestamp_column (hybrid_sync.py 298). -/
def datetime_data_types : List String :=
  ["datetime", "datetime2", "smalldatetime", "timestamp"]

/-- The DATA_TYPE list of get_unique_identifier_column (hybrid_sync.py 317). -/
def unique_identifier_data_types : List String :=
  ["uniqueidentifier", "int", "bigint"]

/-- First column name in lexicographic order, modelling
    ORDER BY COLUMN_NAME followed by taking row zero. -/
def first_by_column_name (cols : List ColumnMeta) : Option String :=
  cols.foldl
    (fun acc c =>
      match acc with
      | none => some c.column_name
      | some m => if c.column_name < m then some c.column_name else some m)
    none

/-- Shallow embedding of get_timestamp_column (hybrid_sync.py 290-307). -/
def get_timestamp_column (t : TableMeta) : Option String :=
  first_by_column_name
    (t.columns.filter (fun c => datetime_data_types.contains c.data_type))

/-- Shallow embedding of get_unique_identifier_column (hybrid_sync.py 309-326). -/
def get_unique_identifier_column (t : TableMeta) : Option String :=
  first_by_column_name
    (t.columns.filter (fun c => unique_identifier_data_types.contains c.data_type))

/-- The four strategies of the incremental executor. -/
inductive SyncStrategy
  | primary_key (column : String)
  | timestamp (column : String)
  | unique_id (column : String)
  | smart_sync
deriving DecidableEq

/-- Shallow embedding of the strategy selection chain of
    incremental_sync_database (hybrid_sync.py 556-575). -/
def select_sync_strategy (t : TableMeta) : SyncStrategy :=
  match get_primary_key_info t with
  | c :: _ => SyncStrategy.primary_key c
  | [] =>
    match get_timestamp_column t with
    | some c => SyncStrategy.timestamp c
    | none =>
      match get_unique_identifier_column t with
      | some c => SyncStrategy.unique_id c
      | none => SyncStrategy.smart_sync

/- ===== Incremental per-table sync (hybrid_sync.py 596-649, 657-666) ===== -/

/-- Destination-side state for one table: the rows loaded into PostgreSQL
    (represented by their sync-column values) and the stored cursor row of
    sync_table_status.  The code stores str(pk_value) in a VARCHAR column
    and the ODBC layer converts it back for the WHERE comparison; the
    embedding keeps the integer value itself. -/
structure TableSyncState where
  destRows : List Int
  cursor : Option Int
deriving DecidableEq

/-- Terminal outcome of one table inside incremental_sync_database:
    success increments successful_syncs, failed increments failed_syncs
    (the per-table except branch, hybrid_sync.py 647-649), no_new_data is
    the continue / no-data path that increments neither counter. -/
inductive TableOutcome
  | success
  | failed
  | no_new_data
deriving DecidableEq

/-- Observable record of one per-table incremental pass. -/
structure TableRun where
  state : TableSyncState
  outcome : TableOutcome
  read_performed : Bool
  load_attempted : Bool
  rows_inserted : Nat
deriving DecidableEq

/-- Shallow embedding of check_for_new_rows (hybrid_sync.py 657-666): the
    COUNT(*) WHERE sync_col > last_pk existence probe. -/
def check_for_new_rows (source : List Int) (last_pk : Option Int) : Bool :=
  match last_pk with
  | none => true
  | some c => decide (0 < (source.filter (fun x => decide (c < x))).length)

/-- Maximum of a pandas series over the fetched rows (df.max). -/
def list_max (l : List Int) : Option Int :=
  match l with
  | [] => none
  | x :: xs => some (xs.foldl max x)

/-- Shallow embedding of the per-table body of incremental_sync_database
    (hybrid_sync.py 596-649) for a table whose selected strategy has a
    cursor column.  source is the table content as sync-column values;
    load_succeeds tells whether load_csv_to_postgres raises.  The order of
    effects mirrors the code: with a stored cursor, the existence probe
    runs first (line 609), then the filtered read (line 616), then
    update_last_synced_pk (line 628) and only afterwards the destination
    load (lines 634-637, replace when bootstrapping, append otherwise);
    an exception from the load is caught by the per-table except
    (line 647), after the cursor row was already rewritten. -/
def incremental_sync_table (source : List Int) (st : TableSyncState)
    (load_succeeds : Bool) : TableRun :=
  match st.cursor with
  | none =>
    let df := source
    let max_pk : Option Int := if 0 < df.length then list_max df else none
    if 0 < df.length then
      let st1 : TableSyncState :=
        match max_pk with
        | some m => { st with cursor := some m }
        | none => st
      if load_succeeds then
        { state := { st1 with destRows := df }, outcome := TableOutcome.success,
          read_performed := true, load_attempted := true, rows_inserted := df.length }
      else
        { state := st1, outcome := TableOutcome.failed,
          read_performed := true, load_attempted := true, rows_inserted := 0 }
    else
      { state := st, outcome := TableOutcome.no_new_data,
        read_performed := true, load_attempted := false, rows_inserted := 0 }
  | some last_pk =>
    if check_for_new_rows source (some last_pk) then
      let df := source.filter (fun x => decide (last_pk < x))
      let max_pk : Option Int :=
        if 0 < df.length then list_max df else some last_pk
      if 0 < df.length then
        let st1 : TableSyncState :=
          match max_pk with
          | some m => { st with cursor := some m }
          | none => st
        if load_succeeds then
          { state := { st1 with destRows := st1.destRows ++ df },
            outcome := TableOutcome.success,
            read_performed := true, load_attempted := true, rows_inserted := df.length }
        else
          { state := st1, outcome := TableOutcome.failed,
            read_performed := true, load_attempted := true, rows_inserted := 0 }
      else
        { state := st, outcome := TableOutcome.no_new_data,
          read_performed := true, load_attempted := false, rows_inserted := 0 }
    else
      { state := st, outcome := TableOutcome.no_new_data,
        read_performed := false, load_attempted := false, rows_inserted := 0 }

/- ===== smart_sync_table_without_pk (hybrid_sync.py 679-740) ===== -/

/-- Field value of a dataframe cell: SQL NULL (pandas NaN), an integer, or
    a string. -/
inductive Value
  | vnull
  | vint (n : Int)
  | vstr (s : String)
deriving DecidableEq

/-- A dataframe: its column list and its rows, each row an association
    list from column name to value. -/
structure DataFrame where
  columns : List String
  rows : List (List (String × Value))
deriving DecidableEq

/-- fillna with the empty string, applied before hashing. -/
def fillna (v : Value) : Value :=
  match v with
  | Value.vnull => Value.vstr ""
  | v => v

/-- Projection of a row onto a column list, in that column order, with
    fillna applied: the tuple the code hashes for one row. -/
def projRow (r : List (String × Value)) (cs : List String) : List Value :=
  cs.map (fun c => fillna ((r.lookup c).getD Value.vnull))

/-- The row_hash column the code computes for a set of rows over the
    comparison columns; h stands for the Python hash over the row tuple. -/
def row_hashes (h : List Value → Int) (rows : List (List (String × Value)))
    (cs : List String) : List Int :=
  rows.map (fun r => h (projRow r cs))

/-- The comparison columns of smart sync (hybrid_sync.py 705-710): the
    columns common to source and destination, any prior row_hash column
    excluded.  The Python code takes a set intersection; the embedding
    fixes the order to the source column order, which both sides then use
    consistently, as the code does. -/
def common_comparison_columns (source existing : DataFrame) : List String :=
  let source_columns := source.columns.filter (fun c => c != "row_hash")
  let existing_columns := existing.columns.filter (fun c => c != "row_hash")
  source_columns.filter (fun c => existing_columns.contains c)

/-- Shallow embedding of the exception-free body of
    smart_sync_table_without_pk (hybrid_sync.py 679-734) for an existing
    destination table: returns the rows appended and the count returned.
    The create-table branch for a missing destination inserts all rows,
    exactly like the empty-destination branch modelled here. -/
def smart_sync_table_without_pk (h : List Value → Int)
    (existing source : DataFrame) : List (List (String × Value)) × Nat :=
  if existing.rows.length = 0 then (source.rows, source.rows.length)
  else
    let common_columns := common_comparison_columns source existing
    if common_columns.length = 0 then ([], 0)
    else
      let existing_hashes := row_hashes h existing.rows common_columns
      let new_rows := source.rows.filter
        (fun r => decide (h (projRow r common_columns) ∉ existing_hashes))
      (new_rows, new_rows.length)

/-- Modelled from the spec: the source rows whose content hash over the
    columns common to source and destination is absent from the
    destination row hashes. -/
def spec_absent_hash_rows (h : List Value → Int)
    (existing source : DataFrame) : List (List (String × Value)) :=
  let common_columns := common_comparison_columns source existing
  source.rows.filter
    (fun r => decide (h (projRow r common_columns)
                      ∉ row_hashes h existing.rows common_columns))

/-- Hash-and-select pass of the fallible smart sync: keeps the source rows
    whose hash is absent from existing_hashes, propagating a hash failure. -/
def select_new_rows (h : List Value → Except String Int)
    (rows : List (List (String × Value))) (cs : List String)
    (existing_hashes : List Int) :
    Except String (List (List (String × Value))) :=
  match rows with
  | [] => Except.ok []
  | r :: rs => do
    let hv ← h (projRow r cs)
    let rest ← select_new_rows h rs cs existing_hashes
    if hv ∈ existing_hashes then pure rest else pure (r :: rest)

/-- The try-block of smart_sync_table_without_pk with a fallible row hash,
    for modelling an exception inside the hash comparison. -/
def smart_sync_body (h : List Value → Except String Int)
    (existing source : DataFrame) :
    Except String (List (List (String × Value)) × Nat) :=
  if existing.rows.length = 0 then Except.ok (source.rows, source.rows.length)
  else
    let common_columns := common_comparison_columns source existing
    if common_columns.length = 0 then Except.ok ([], 0)
    else do
      let existing_hashes ← existing.rows.mapM
        (fun r => h (projRow r common_columns))
      let new_rows ← select_new_rows h source.rows common_columns existing_hashes
      Except.ok (new_rows, new_rows.length)

/-- Shallow embedding of smart_sync_table_without_pk with its except
    branch (hybrid_sync.py 736-740): on any exception the function falls
    back to appending the entire source dataframe and returns its length. -/
def smart_sync_with_fallback (h : List Value → Except String Int)
    (existing source : DataFrame) : List (List (String × Value)) × Nat :=
  match smart_sync_body h existing source with
  | Except.ok res => res
  | Except.error _ => (source.rows, source.rows.length)

/- ===== Per-table failure isolation (hybrid_sync.py 419-530, 647-649) ===== -/

/-- Identity of one source table inside a database. -/
structure TableSpec where
  table_schem : String
  table_name : String
deriving DecidableEq

/-- Shallow embedding of should_skip_table (hybrid_sync.py 201-221).  The
    case-insensitive schema comparison schema.lower() == sys is expressed
    on the character list so that concrete instances reduce in the
    kernel. -/
def should_skip_table (schema table : String) : Bool :=
  let skip_tables := ["sys.trace_xe_event_map", "sys.trace_xe_action_map",
                      "sys.trace_xe_event_map", "sys.trace_xe_action_map"]
  let table_full_name := schema ++ "." ++ table
  if skip_tables.contains table_full_name then true
  else if schema.data.map Char.toLower == "sys".data then true
  else false

/-- Aggregated per-database counters of full_sync_database, plus the list
    of tables whose read was attempted and the captured error texts. -/
structure DbSyncResult where
  processed_count : Nat
  successful_syncs : Nat
  failed_syncs : Nat
  total_rows_processed : Nat
  attempted : List TableSpec
  errors : List (TableSpec × String)
deriving DecidableEq

/-- One iteration of the table loop of full_sync_database
    (hybrid_sync.py 438-528): skip system tables, otherwise read the whole
    table and load it; any exception from read or load is caught at table
    granularity, its text captured, failed_syncs incremented, and the loop
    proceeds.  read_table and load_table are the fallible effects (SQL
    read plus CSV export, and the PostgreSQL load). -/
def full_sync_step (read_table : TableSpec → Except String (List Int))
    (load_table : TableSpec → List Int → Except String Unit)
    (acc : DbSyncResult) (t : TableSpec) : DbSyncResult :=
  if should_skip_table t.table_schem t.table_name then acc
  else
    let acc1 := { acc with attempted := acc.attempted ++ [t] }
    match read_table t with
    | Except.error e =>
      { acc1 with failed_syncs := acc1.failed_syncs + 1,
                  errors := acc1.errors ++ [(t, e)] }
    | Except.ok df =>
      match load_table t df with
      | Except.error e =>
        { acc1 with failed_syncs := acc1.failed_syncs + 1,
                    errors := acc1.errors ++ [(t, e)] }
      | Except.ok _ =>
        { acc1 with processed_count := acc1.processed_count + 1,
                    successful_syncs := acc1.successful_syncs + 1,
                    total_rows_processed := acc1.total_rows_processed + df.length }

/-- Shallow embedding of the table loop of full_sync_database
    (hybrid_sync.py 419-530). -/
def full_sync_database (read_table : TableSpec → Except String (List Int))
    (load_table : TableSpec → List Int → Except String Unit)
    (tables : List TableSpec) : DbSyncResult :=
  tables.foldl (full_sync_step read_table load_table)
    { processed_count := 0, successful_syncs := 0, failed_syncs := 0,
      total_rows_processed := 0, attempted := [], errors := [] }

/- ===== process_sql_server_hybrid and main (hybrid_sync.py 742-917, 953-1013) ===== -/

/-- The summary dictionary returned by process_sql_server_hybrid on its
    normal path (hybrid_sync.py 868-875). -/
structure ServerSummary where
  databases : Nat
  tables : Nat
  successful_syncs : Nat
  failed_syncs : Nat
  rows_processed : Nat
  rows_inserted : Nat
deriving DecidableEq

/-- Shallow embedding of the result of process_sql_server_hybrid
    (hybrid_sync.py 742-917) as a function of the discovered user-database
    list: when the list is empty the function executes the bare return at
    lines 759-761 and yields None; otherwise it runs the per-database loop
    (abstracted as run_databases) and returns its summary dictionary. -/
def process_sql_server_hybrid (databases : List String)
    (run_databases : List String → ServerSummary) : Option ServerSummary :=
  if databases.length = 0 then none
  else some (run_databases databases)

/-- Python attribute access summary.get on the value returned by
    process_sql_server_hybrid (hybrid_sync.py 988-993): on None it raises
    AttributeError, modelled as the error branch. -/
def summary_get (summary : Option ServerSummary) (field : ServerSummary → Nat) :
    Except String Nat :=
  match summary with
  | none => Except.error "AttributeError: NoneType object has no attribute get"
  | some s => Except.ok (field s)

/-- Aggregated totals of main (hybrid_sync.py 970-1004). -/
structure MainTotals where
  total_databases : Nat
  total_tables : Nat
  total_rows_processed : Nat
  total_rows_inserted : Nat
  successful_syncs : Nat
  failed_syncs : Nat
deriving DecidableEq

/-- The server loop of main (hybrid_sync.py 979-993): for each server,
    process it and aggregate its summary through summary.get; an
    AttributeError aborts the loop. -/
def main_loop (servers : List (List String))
    (run_databases : List String → ServerSummary) : Except String MainTotals :=
  servers.foldlM
    (fun acc dbs => do
      let summary := process_sql_server_hybrid dbs run_databases
      let d ← summary_get summary (fun s => s.databases)
      let t ← summary_get summary (fun s => s.tables)
      let rp ← summary_get summary (fun s => s.rows_processed)
      let ri ← summary_get summary (fun s => s.rows_inserted)
      let ss ← summary_get summary (fun s => s.successful_syncs)
      let fs ← summary_get summary (fun s => s.failed_syncs)
      pure { total_databases := acc.total_databases + d,
             total_tables := acc.total_tables + t,
             total_rows_processed := acc.total_rows_processed + rp,
             total_rows_inserted := acc.total_rows_inserted + ri,
             successful_syncs := acc.successful_syncs + ss,
             failed_syncs := acc.failed_syncs + fs })
    { total_databases := 0, total_tables := 0, total_rows_processed := 0,
      total_rows_inserted := 0, successful_syncs := 0, failed_syncs := 0 }

/-- End state of main (hybrid_sync.py 995-1013): COMPLETED with the final
    summary, or the top-level except branch that records the run FAILED. -/
inductive MainOutcome
  | completed (totals : MainTotals)
  | failed (error_message : String)
deriving DecidableEq

/-- Shallow embedding of the try block plus except handler of main. -/
def main_run (servers : List (List String))
    (run_databases : List String → ServerSummary) : MainOutcome :=
  match main_loop servers run_databases with
  | Except.ok totals => MainOutcome.completed totals
  | Except.error e => MainOutcome.failed e

/- ===================== Theorems ===================== -/

/-- C2: for every pair of counts, check_data_consistency records
    missing_rows = max(0, source - target), extra_rows = max(0, target - source),
    consistency_percentage = target/source*100 (0 when source = 0), status
    CONSISTENT exactly when the counts are equal, an alert of severity HIGH
    when the percentage is below 95 and MEDIUM otherwise exactly when
    INCONSISTENT; and the concrete instance (100, 80) yields INCONSISTENT,
    80 percent, missing = 20, extra = 0 (with a HIGH alert). -/
theorem check_data_consistency_spec :
    (∀ source_count target_count : Nat,
      (check_data_consistency source_count target_count).missing_rows
          = max 0 ((source_count : Int) - (target_count : Int))
      ∧ (check_data_consistency source_count target_count).extra_rows
          = max 0 ((target_count : Int) - (source_count : Int))
      ∧ (check_data_consistency source_count target_count).consistency_percentage
          = (if source_count = 0 then 0 else (target_count : ℚ) / (source_count : ℚ) * 100)
      ∧ ((check_data_consistency source_count target_count).status = "CONSISTENT"
          ↔ source_count = target_count)
      ∧ ((check_data_consistency source_count target_count).status = "INCONSISTENT"
          ↔ source_count ≠ target_count)
      ∧ (check_data_consistency source_count target_count).alert_severity
          = (if source_count = target_count then none
             else some (if (check_data_consistency source_count target_count).consistency_percentage < 95
                        then "HIGH" else "MEDIUM")))
    ∧ check_data_consistency 100 80
        = { source_row_count := 100, target_row_count := 80, missing_rows := 20,
            extra_rows := 0, consistency_percentage := 80, status := "INCONSISTENT",
            alert_severity := some "HIGH" } := by
  have hcc : ("CONSISTENT" : String) ≠ "INCONSISTENT" := by decide
  constructor
  · intro s t
    refine ⟨rfl, rfl, ?_, ?_, ?_, ?_⟩
    · show (if s > 0 then (t : ℚ) / (s : ℚ) * 100 else 0)
          = (if s = 0 then 0 else (t : ℚ) / (s : ℚ) * 100)
      by_cases hs : s = 0
      · subst hs; rfl
      · rw [if_pos (Nat.pos_of_ne_zero hs), if_neg hs]
    · show (if s = t then "CONSISTENT" else "INCONSISTENT") = "CONSISTENT" ↔ s = t
      by_cases hst : s = t
      · simp [hst]
      · simp only [if_neg hst]
        exact ⟨fun h => absurd h.symm hcc, fun h => absurd h hst⟩
    · show (if s = t then "CONSISTENT" else "INCONSISTENT") = "INCONSISTENT" ↔ s ≠ t
      by_cases hst : s = t
      · simp only [if_pos hst]
        exact ⟨fun h => absurd h hcc, fun h => absurd hst h⟩
      · simp [hst]
    · show (if (if s = t then "CONSISTENT" else "INCONSISTENT") = "INCONSISTENT"
            then some (if (check_data_consistency s t).consistency_percentage < 95
                       then "HIGH" else "MEDIUM")
            else none)
          = (if s = t then none
             else some (if (check_data_consistency s t).consistency_percentage < 95
                        then "HIGH" else "MEDIUM"))
      by_cases hst : s = t
      · rw [if_pos hst, if_pos hst, if_neg hcc]
      · rw [if_neg hst, if_neg hst, if_pos rfl]
  · simp only [check_data_consistency]
    norm_num

/-- C4 counterexample: with zero successes and zero failures the code derives
    SUCCESS, so the claimed equivalence (status FAILED iff successful_syncs = 0)
    is false at (successful_syncs, failed_syncs) = (0, 0). -/
theorem overall_status_claim_counterexample :
    overall_status 0 0 = "SUCCESS" ∧ ¬ (overall_status 0 0 = "FAILED" ↔ (0 : Nat) = 0) := by
  refine ⟨rfl, ?_⟩
  intro h
  have h2 : overall_status 0 0 = "FAILED" := h.mpr rfl
  exact absurd h2 (by decide)

/-- C4 amended: overall_status is SUCCESS iff failed_syncs = 0, FAILED iff
    failed_syncs is nonzero and successful_syncs = 0, and PARTIAL iff
    failed_syncs is nonzero and successful_syncs is nonzero. -/
theorem overall_status_characterization :
    ∀ successful_syncs failed_syncs : Nat,
      (overall_status successful_syncs failed_syncs = "SUCCESS" ↔ failed_syncs = 0)
      ∧ (overall_status successful_syncs failed_syncs = "FAILED"
          ↔ (failed_syncs ≠ 0 ∧ successful_syncs = 0))
      ∧ (overall_status successful_syncs failed_syncs = "PARTIAL"
          ↔ (failed_syncs ≠ 0 ∧ successful_syncs ≠ 0)) := by
  have hsf : ("SUCCESS" : String) ≠ "FAILED" := by decide
  have hsp : ("SUCCESS" : String) ≠ "PARTIAL" := by decide
  have hpf : ("PARTIAL" : String) ≠ "FAILED" := by decide
  have hps : ("PARTIAL" : String) ≠ "SUCCESS" := by decide
  have hfs : ("FAILED" : String) ≠ "SUCCESS" := by decide
  have hfp : ("FAILED" : String) ≠ "PARTIAL" := by decide
  intro s f
  by_cases hf : f = 0
  · rw [show overall_status s f = "SUCCESS" from by rw [overall_status, if_pos hf]]
    refine ⟨⟨fun _ => hf, fun _ => rfl⟩, ?_, ?_⟩
    · exact ⟨fun h => absurd h hsf, fun h => absurd hf h.1⟩
    · exact ⟨fun h => absurd h hsp, fun h => absurd hf h.1⟩
  · by_cases hs : s = 0
    · have hs' : ¬ s > 0 := by omega
      rw [show overall_status s f = "FAILED" from by
        rw [overall_status, if_neg hf, if_neg hs']]
      refine ⟨?_, ?_, ?_⟩
      · exact ⟨fun h => absurd h hfs, fun h => absurd h hf⟩
      · exact ⟨fun _ => ⟨hf, hs⟩, fun _ => rfl⟩
      · exact ⟨fun h => absurd h hfp, fun h => absurd hs h.2⟩
    · have hs' : s > 0 := Nat.pos_of_ne_zero hs
      rw [show overall_status s f = "PARTIAL" from by
        rw [overall_status, if_neg hf, if_pos hs']]
      refine ⟨?_, ?_, ?_⟩
      · exact ⟨fun h => absurd h hps, fun h => absurd h hf⟩
      · exact ⟨fun h => absurd h hpf, fun h => absurd h.2 (fun hh => hs hh)⟩
      · exact ⟨fun _ => ⟨hf, hs⟩, fun _ => rfl⟩

/-- Membership is preserved by insert_by_ordinal. -/
lemma mem_insert_by_ordinal (r x : KeyColumnUsageRow) (l : List KeyColumnUsageRow) :
    x ∈ insert_by_ordinal r l ↔ x = r ∨ x ∈ l := by
  induction l with
  | nil => simp [insert_by_ordinal]
  | cons a as ih =>
    by_cases h : r.ordinal_position ≤ a.ordinal_position
    · simp only [insert_by_ordinal, if_pos h, List.mem_cons]
    · simp only [insert_by_ordinal, if_neg h, List.mem_cons, ih]
      tauto

/-- Membership is preserved by sort_by_ordinal. -/
lemma mem_sort_by_ordinal (x : KeyColumnUsageRow) (l : List KeyColumnUsageRow) :
    x ∈ sort_by_ordinal l ↔ x ∈ l := by
  induction l with
  | nil => simp [sort_by_ordinal]
  | cons a as ih =>
    simp only [sort_by_ordinal, mem_insert_by_ordinal, List.mem_cons, ih]

/-- The head of the sorted list carries the minimum ordinal position. -/
lemma sort_by_ordinal_head_min (l : List KeyColumnUsageRow) :
    ∀ r rest, sort_by_ordinal l = r :: rest →
      ∀ x ∈ l, r.ordinal_position ≤ x.ordinal_position := by
  induction l with
  | nil => intro r rest h; simp [sort_by_ordinal] at h
  | cons a as ih =>
    intro r rest hsort x hx
    rw [sort_by_ordinal] at hsort
    cases hs : sort_by_ordinal as with
    | nil =>
      have has : as = [] := by
        cases as with
        | nil => rfl
        | cons b bs =>
          exfalso
          have hb : b ∈ sort_by_ordinal (b :: bs) :=
            (mem_sort_by_ordinal b (b :: bs)).mpr (List.mem_cons_self b bs)
          rw [hs] at hb
          exact absurd hb (List.not_mem_nil b)
      subst has
      rw [hs] at hsort
      simp only [insert_by_ordinal] at hsort
      obtain ⟨hra, -⟩ := List.cons.inj hsort
      subst hra
      rcases List.mem_cons.mp hx with h1 | h1
      · subst h1; exact Nat.le_refl _
      · exact absurd h1 (List.not_mem_nil x)
    | cons m t =>
      rw [hs] at hsort
      have hmin : ∀ y ∈ as, m.ordinal_position ≤ y.ordinal_position := ih m t hs
      by_cases hcmp : a.ordinal_position ≤ m.ordinal_position
      · rw [insert_by_ordinal, if_pos hcmp] at hsort
        obtain ⟨hra, -⟩ := List.cons.inj hsort
        subst hra
        rcases List.mem_cons.mp hx with h1 | h1
        · subst h1; exact Nat.le_refl _
        · exact Nat.le_trans hcmp (hmin x h1)
      · rw [insert_by_ordinal, if_neg hcmp] at hsort
        obtain ⟨hrm, -⟩ := List.cons.inj hsort
        subst hrm
        rcases List.mem_cons.mp hx with h1 | h1
        · subst h1; exact Nat.le_of_lt (Nat.lt_of_not_le hcmp)
        · exact hmin x h1

/-- Folding the column-name minimum starting from a known candidate yields a
    name that comes from the candidate or the list and bounds both below. -/
lemma first_by_column_name_aux (cols : List ColumnMeta) :
    ∀ (a res : String),
      cols.foldl
        (fun acc c =>
          match acc with
          | none => some c.column_name
          | some m => if c.column_name < m then some c.column_name else some m)
        (some a) = some res →
      (res = a ∨ ∃ c ∈ cols, c.column_name = res)
      ∧ res ≤ a ∧ ∀ c ∈ cols, res ≤ c.column_name := by
  induction cols with
  | nil =>
    intro a res h
    simp only [List.foldl_nil, Option.some.injEq] at h
    subst h
    exact ⟨Or.inl rfl, le_refl _, fun c hc => absurd hc (List.not_mem_nil c)⟩
  | cons c cs ih =>
    intro a res h
    rw [List.foldl_cons] at h
    by_cases hlt : c.column_name < a
    · simp only [if_pos hlt] at h
      obtain ⟨hsrc, hle, hall⟩ := ih c.column_name res h
      refine ⟨?_, ?_, ?_⟩
      · rcases hsrc with h1 | ⟨d, hd, hdn⟩
        · exact Or.inr ⟨c, List.mem_cons_self c cs, h1.symm⟩
        · exact Or.inr ⟨d, List.mem_cons_of_mem c hd, hdn⟩
      · exact le_trans hle (le_of_lt hlt)
      · intro d hd
        rcases List.mem_cons.mp hd with h1 | h1
        · subst h1; exact hle
        · exact hall d h1
    · simp only [if_neg hlt] at h
      obtain ⟨hsrc, hle, hall⟩ := ih a res h
      refine ⟨?_, hle, ?_⟩
      · rcases hsrc with h1 | ⟨d, hd, hdn⟩
        · exact Or.inl h1
        · exact Or.inr ⟨d, List.mem_cons_of_mem c hd, hdn⟩
      · intro d hd
        rcases List.mem_cons.mp hd with h1 | h1
        · subst h1; exact le_trans hle (not_lt.mp hlt)
        · exact hall d h1

/-- first_by_column_name returns a name of the list that is lexicographically
    least among the names of the list. -/
lemma first_by_column_name_min (cols : List ColumnMeta) (m : String) :
    first_by_column_name cols = some m →
    (∃ c ∈ cols, c.column_name = m) ∧ ∀ c ∈ cols, m ≤ c.column_name := by
  cases cols with
  | nil => intro h; simp [first_by_column_name] at h
  | cons c cs =>
    intro h
    rw [first_by_column_name, List.foldl_cons] at h
    obtain ⟨hsrc, hle, hall⟩ := first_by_column_name_aux cs c.column_name m h
    refine ⟨?_, ?_⟩
    · rcases hsrc with h1 | ⟨d, hd, hdn⟩
      · exact ⟨c, List.mem_cons_self c cs, h1.symm⟩
      · exact ⟨d, List.mem_cons_of_mem c hd, hdn⟩
    · intro d hd
      rcases List.mem_cons.mp hd with h1 | h1
      · subst h1; exact hle
      · exact hall d h1

/-- The fold of max is bounded below by its starting value. -/
lemma le_foldl_max (xs : List Int) : ∀ a : Int, a ≤ xs.foldl max a := by
  induction xs with
  | nil => intro a; exact le_refl a
  | cons b bs ih =>
    intro a
    exact le_trans (le_max_left a b) (ih (max a b))

/-- Every member of the list is bounded by the fold of max. -/
lemma mem_le_foldl_max (xs : List Int) :
    ∀ (a x : Int), x ∈ xs → x ≤ xs.foldl max a := by
  induction xs with
  | nil => intro a x hx; exact absurd hx (List.not_mem_nil x)
  | cons b bs ih =>
    intro a x hx
    rcases List.mem_cons.mp hx with h1 | h1
    · subst h1
      exact le_trans (le_max_right a x) (le_foldl_max bs (max a x))
    · exact ih (max a b) x h1

/-- list_max bounds every member of the list. -/
lemma list_max_is_ub (l : List Int) (m : Int) :
    list_max l = some m → ∀ x ∈ l, x ≤ m := by
  cases l with
  | nil => intro h; simp [list_max] at h
  | cons y ys =>
    intro h x hx
    simp only [list_max, Option.some.injEq] at h
    subst h
    rcases List.mem_cons.mp hx with h1 | h1
    · subst h1; exact le_foldl_max ys x
    · exact mem_le_foldl_max ys y x h1

/-- With a stored cursor and a zero existence probe, the per-table pass
    reads nothing, loads nothing, inserts nothing, and leaves the state
    (cursor included) unchanged, ending in the non-failed no_new_data
    terminal. -/
lemma incremental_skip_of_no_new_rows :
    ∀ (source : List Int) (st : TableSyncState) (c : Int) (load_succeeds : Bool),
      st.cursor = some c →
      check_for_new_rows source (some c) = false →
      incremental_sync_table source st load_succeeds
        = { state := st, outcome := TableOutcome.no_new_data,
            read_performed := false, load_attempted := false,
            rows_inserted := 0 } := by
  intro source st c load_succeeds hc hprobe
  obtain ⟨dest, cur⟩ := st
  simp only at hc
  subst hc
  simp [incremental_sync_table, hprobe]

/-- C6: update_sync_status with sync_type full writes only last_full_sync,
    sync_status and updated_at (last_incremental_sync and created_at keep the
    stored value in the conflict-update case and last_incremental_sync takes
    its NULL default in the insert case); symmetrically for incremental. -/
theorem update_sync_status_frame :
    ∀ (r : SyncStatusRow) (s : String) (now : Nat),
      update_sync_status (some r) "full" s now
          = { r with last_full_sync := some now, sync_status := s, updated_at := now }
      ∧ (update_sync_status (some r) "full" s now).last_incremental_sync
          = r.last_incremental_sync
      ∧ (update_sync_status none "full" s now).last_incremental_sync = none
      ∧ update_sync_status (some r) "incremental" s now
          = { r with last_incremental_sync := some now, sync_status := s, updated_at := now }
      ∧ (update_sync_status (some r) "incremental" s now).last_full_sync
          = r.last_full_sync
      ∧ (update_sync_status none "incremental" s now).last_full_sync = none := by
  intro r s now
  refine ⟨rfl, rfl, rfl, ?_, ?_, ?_⟩ <;> simp [update_sync_status]

/-- C3: the strategy selector applies the exact precedence primary key,
    then datetime column, then GUID or int or bigint column, then smart
    sync; the primary-key cursor is the first primary-key column by ordinal
    position, and the fallback cursors are the first matching column by
    column-name ordering.  Since the first conjunct needs no assumption on
    the datetime columns, a table with both a primary key and a timestamp
    column selects the primary-key strategy. -/
theorem select_sync_strategy_precedence :
    (∀ (t : TableMeta) (c : String) (rest : List String),
        get_primary_key_info t = c :: rest →
        select_sync_strategy t = SyncStrategy.primary_key c
        ∧ ∃ row ∈ t.key_column_usage.filter
              (fun r => matches_pk_pattern r.constraint_name),
            row.column_name = c
            ∧ ∀ row2 ∈ t.key_column_usage.filter
                  (fun r => matches_pk_pattern r.constraint_name),
                row.ordinal_position ≤ row2.ordinal_position)
    ∧ (∀ (t : TableMeta) (c : String),
        get_primary_key_info t = [] →
        get_timestamp_column t = some c →
        select_sync_strategy t = SyncStrategy.timestamp c
        ∧ (∃ col ∈ t.columns.filter
              (fun x => datetime_data_types.contains x.data_type),
            col.column_name = c)
        ∧ ∀ col ∈ t.columns.filter
              (fun x => datetime_data_types.contains x.data_type),
            c ≤ col.column_name)
    ∧ (∀ (t : TableMeta) (c : String),
        get_primary_key_info t = [] →
        get_timestamp_column t = none →
        get_unique_identifier_column t = some c →
        select_sync_strategy t = SyncStrategy.unique_id c
        ∧ (∃ col ∈ t.columns.filter
              (fun x => unique_identifier_data_types.contains x.data_type),
            col.column_name = c)
        ∧ ∀ col ∈ t.columns.filter
              (fun x => unique_identifier_data_types.contains x.data_type),
            c ≤ col.column_name)
    ∧ (∀ t : TableMeta,
        get_primary_key_info t = [] →
        get_timestamp_column t = none →
        get_unique_identifier_column t = none →
        select_sync_strategy t = SyncStrategy.smart_sync) := by
  refine ⟨?_, ?_, ?_, ?_⟩
  · intro t c rest hpk
    constructor
    · rw [select_sync_strategy, hpk]
    · rw [get_primary_key_info] at hpk
      cases hs : sort_by_ordinal (t.key_column_usage.filter
          (fun r => matches_pk_pattern r.constraint_name)) with
      | nil => rw [hs] at hpk; simp at hpk
      | cons row srest =>
        rw [hs] at hpk
        simp only [List.map_cons, List.cons.injEq] at hpk
        refine ⟨row, ?_, hpk.1, ?_⟩
        · exact (mem_sort_by_ordinal row _).mp (hs ▸ List.mem_cons_self row srest)
        · exact sort_by_ordinal_head_min _ row srest hs
  · intro t c hpk hts
    refine ⟨?_, ?_⟩
    · rw [select_sync_strategy, hpk, hts]
    · exact first_by_column_name_min _ c hts
  · intro t c hpk hts huid
    refine ⟨?_, ?_⟩
    · rw [select_sync_strategy, hpk, hts, huid]
    · exact first_by_column_name_min _ c huid
  · intro t hpk hts huid
    rw [select_sync_strategy, hpk, hts, huid]

/-- Witness for C3: a concrete table whose metadata carries both a primary
    key on order_id and a datetime column selects the primary-key strategy,
    and a concrete table with only a datetime column selects the timestamp
    strategy on it. -/
theorem select_sync_strategy_precedence_witness :
    select_sync_strategy
        { key_column_usage := [{ constraint_name := "PK_orders",
                                 column_name := "order_id",
                                 ordinal_position := 1 }],
          columns := [{ column_name := "order_id", data_type := "int" },
                      { column_name := "created_at", data_type := "datetime" }] }
      = SyncStrategy.primary_key "order_id"
    ∧ select_sync_strategy
        { key_column_usage := [],
          columns := [{ column_name := "modified_at", data_type := "datetime" }] }
      = SyncStrategy.timestamp "modified_at" :=
  ⟨(select_sync_strategy_precedence.1
      { key_column_usage := [{ constraint_name := "PK_orders",
                               column_name := "order_id",
                               ordinal_position := 1 }],
        columns := [{ column_name := "order_id", data_type := "int" },
                    { column_name := "created_at", data_type := "datetime" }] }
      "order_id" [] (by decide)).1,
   (select_sync_strategy_precedence.2.1
      { key_column_usage := [],
        columns := [{ column_name := "modified_at", data_type := "datetime" }] }
      "modified_at" (by decide) (by decide)).1⟩

/-- C1 divergence: with a stored cursor 1, source sync-column values [1, 2]
    and a destination load that raises, the per-table pass ends failed, the
    destination is unchanged, but the stored cursor has already been
    rewritten to 2 (update_last_synced_pk runs at hybrid_sync.py line 628,
    before the load at lines 634-637), so the next run will not re-fetch
    the row with value 2; the claim says the cursor would still be 1. -/
theorem incremental_cursor_advanced_before_failed_load :
    incremental_sync_table [1, 2] { destRows := [1], cursor := some 1 } false
      = { state := { destRows := [1], cursor := some 2 },
          outcome := TableOutcome.failed, read_performed := true,
          load_attempted := true, rows_inserted := 0 }
    ∧ ({ destRows := [1], cursor := some 2 } : TableSyncState).cursor ≠ some 1
    ∧ check_for_new_rows [1, 2] (some 2) = false := by
  refine ⟨?_, by decide, by decide⟩
  decide

/-- C5: with a stored prior cursor, a zero existence probe means the
    per-table pass performs no read and no load, inserts zero rows, leaves
    the state (cursor and destination) unchanged, and terminates in the
    non-failed no_new_data outcome; consequently running the pass twice in
    a row over an unchanged source inserts zero rows the second time and
    leaves the state of the first run unchanged. -/
theorem incremental_probe_skip_and_idempotence :
    (∀ (source : List Int) (st : TableSyncState) (c : Int) (load_succeeds : Bool),
        st.cursor = some c →
        check_for_new_rows source (some c) = false →
        incremental_sync_table source st load_succeeds
          = { state := st, outcome := TableOutcome.no_new_data,
              read_performed := false, load_attempted := false,
              rows_inserted := 0 })
    ∧ (∀ (source : List Int) (st : TableSyncState) (c : Int),
        st.cursor = some c →
        (incremental_sync_table source
            (incremental_sync_table source st true).state true).rows_inserted = 0
        ∧ (incremental_sync_table source
            (incremental_sync_table source st true).state true).state
          = (incremental_sync_table source st true).state) := by
  refine ⟨incremental_skip_of_no_new_rows, ?_⟩
  intro source st c hc
  by_cases hprobe : check_for_new_rows source (some c) = false
  · have h1 := incremental_skip_of_no_new_rows source st c true hc hprobe
    rw [h1]
    dsimp only
    rw [incremental_skip_of_no_new_rows source st c true hc hprobe]
    exact ⟨rfl, rfl⟩
  · have hprobe' : check_for_new_rows source (some c) = true := by
      cases hb : check_for_new_rows source (some c) with
      | false => exact absurd hb hprobe
      | true => rfl
    have hlen : 0 < (source.filter (fun x => decide (c < x))).length := by
      have h := hprobe'
      rw [check_for_new_rows] at h
      exact of_decide_eq_true h
    obtain ⟨dest, cur⟩ := st
    simp only at hc
    subst hc
    cases hdf : source.filter (fun x => decide (c < x)) with
    | nil => rw [hdf] at hlen; simp at hlen
    | cons y ys =>
      have hmax : list_max (source.filter (fun x => decide (c < x)))
          = some (ys.foldl max y) := by rw [hdf]; rfl
      have hr1 : incremental_sync_table source ⟨dest, some c⟩ true
          = { state := { destRows := dest ++ source.filter (fun x => decide (c < x)),
                         cursor := some (ys.foldl max y) },
              outcome := TableOutcome.success, read_performed := true,
              load_attempted := true,
              rows_inserted := (source.filter (fun x => decide (c < x))).length } := by
        simp only [incremental_sync_table, hprobe', hmax, if_pos hlen, if_true]
      have hcm : c < ys.foldl max y := by
        have hy : y ∈ source.filter (fun x => decide (c < x)) := by
          rw [hdf]; exact List.mem_cons_self y ys
        have hy2 : c < y := by
          have := List.of_mem_filter hy
          exact of_decide_eq_true this
        have hy3 : y ≤ ys.foldl max y :=
          list_max_is_ub (source.filter (fun x => decide (c < x))) (ys.foldl max y)
            hmax y hy
        exact lt_of_lt_of_le hy2 hy3
      have hprobe2 : check_for_new_rows source (some (ys.foldl max y)) = false := by
        rw [check_for_new_rows]
        apply decide_eq_false
        intro hpos
        rcases List.exists_mem_of_length_pos hpos with ⟨z, hz⟩
        have hz1 : z ∈ source := List.mem_of_mem_filter hz
        have hz2 : ys.foldl max y < z :=
          of_decide_eq_true (List.mem_filter.mp hz).2
        have hz3 : z ≤ ys.foldl max y := by
          rcases lt_or_le c z with hcz | hcz
          · exact list_max_is_ub _ _ hmax z
              (List.mem_filter.mpr ⟨hz1, decide_eq_true hcz⟩)
          · exact le_of_lt (lt_of_le_of_lt hcz hcm)
        exact absurd hz2 (not_lt.mpr hz3)
      rw [hr1]
      dsimp only
      rw [incremental_skip_of_no_new_rows source
        { destRows := dest ++ source.filter (fun x => decide (c < x)),
          cursor := some (ys.foldl max y) }
        (ys.foldl max y) true rfl hprobe2]
      exact ⟨rfl, rfl⟩

/-- Witness for C5: with cursor 2 stored and source values [1, 2] the pass
    is a pure skip, and for source [1, 2, 3] with cursor 1 a second pass
    right after the first inserts zero rows. -/
theorem incremental_probe_skip_and_idempotence_witness :
    incremental_sync_table [1, 2] { destRows := [1, 2], cursor := some 2 } true
      = { state := { destRows := [1, 2], cursor := some 2 },
          outcome := TableOutcome.no_new_data, read_performed := false,
          load_attempted := false, rows_inserted := 0 }
    ∧ (incremental_sync_table [1, 2, 3]
          (incremental_sync_table [1, 2, 3]
            { destRows := [1], cursor := some 1 } true).state true).rows_inserted = 0 :=
  ⟨incremental_probe_skip_and_idempotence.1 [1, 2]
      { destRows := [1, 2], cursor := some 2 } 2 true rfl (by decide),
   (incremental_probe_skip_and_idempotence.2 [1, 2, 3]
      { destRows := [1], cursor := some 1 } 1 rfl).1⟩

/-- C7: in the exception-free case the rows appended by smart sync are
    exactly the source rows whose content hash over the columns common to
    source and destination is absent from the destination row hashes, and
    the returned count is the number of those rows; in particular with
    destination rows A, B and source rows A, B, C (single column a, values
    1, 2, 3, hash = sum of the integer fields) exactly C is inserted and
    the count is 1. -/
theorem smart_sync_inserts_absent_hashes :
    (∀ (h : List Value → Int) (existing source : DataFrame),
        smart_sync_table_without_pk h existing source
          = (spec_absent_hash_rows h existing source,
             (spec_absent_hash_rows h existing source).length))
    ∧ smart_sync_table_without_pk
        (fun vs => vs.foldl
          (fun acc v => acc + (match v with | Value.vint n => n | _ => 0)) 0)
        { columns := ["a"],
          rows := [[("a", Value.vint 1)], [("a", Value.vint 2)]] }
        { columns := ["a"],
          rows := [[("a", Value.vint 1)], [("a", Value.vint 2)],
                   [("a", Value.vint 3)]] }
      = ([[("a", Value.vint 3)]], 1) := by
  constructor
  · intro h existing source
    by_cases he : existing.rows.length = 0
    · have he' : existing.rows = [] := List.length_eq_zero.mp he
      rw [smart_sync_table_without_pk, if_pos he]
      have : spec_absent_hash_rows h existing source = source.rows := by
        rw [spec_absent_hash_rows, he']
        apply List.filter_eq_self.mpr
        intro r hr
        apply decide_eq_true
        simp [row_hashes]
      rw [this]
    · rw [smart_sync_table_without_pk, if_neg he]
      by_cases hcc : (common_comparison_columns source existing).length = 0
      · have hcc' : common_comparison_columns source existing = [] :=
          List.length_eq_zero.mp hcc
        rw [if_pos hcc]
        obtain ⟨e0, erest, herows⟩ :
            ∃ e0 erest, existing.rows = e0 :: erest := by
          cases hrows : existing.rows with
          | nil => exact absurd (by rw [hrows]; rfl) he
          | cons e0 erest => exact ⟨e0, erest, rfl⟩
        have : spec_absent_hash_rows h existing source = [] := by
          rw [spec_absent_hash_rows, hcc']
          apply List.filter_eq_nil_iff.mpr
          intro r hr
          have hh : h (projRow r []) = h (projRow e0 []) := rfl
          simp [herows, row_hashes, hh]
        rw [this]
        rfl
      · rw [if_neg hcc]
        rfl
  · decide

/-- C10: if any exception is raised inside the hash-compare body of
    smart_sync_table_without_pk, the except branch appends the entire
    source dataframe and returns its length, so a source row already
    present in the destination ends up stored at least twice. -/
theorem smart_sync_exception_fallback_duplicates :
    ∀ (h : List Value → Except String Int) (existing source : DataFrame)
      (err : String),
      smart_sync_body h existing source = Except.error err →
      smart_sync_with_fallback h existing source
        = (source.rows, source.rows.length)
      ∧ ∀ r ∈ source.rows, r ∈ existing.rows →
          2 ≤ (existing.rows ++ source.rows).count r := by
  intro h existing source err hbody
  constructor
  · rw [smart_sync_with_fallback, hbody]
  · intro r hrs hre
    rw [List.count_append]
    have h1 : 0 < existing.rows.count r := List.count_pos_iff.mpr hre
    have h2 : 0 < source.rows.count r := List.count_pos_iff.mpr hrs
    omega

/-- Witness for C10: a row hash that always raises makes smart sync append
    the whole one-row source next to an identical destination row, storing
    the row twice. -/
theorem smart_sync_exception_fallback_duplicates_witness :
    smart_sync_with_fallback (fun _ => Except.error "hash failure")
        { columns := ["a"], rows := [[("a", Value.vint 1)]] }
        { columns := ["a"], rows := [[("a", Value.vint 1)]] }
      = ([[("a", Value.vint 1)]], 1)
    ∧ 2 ≤ (({ columns := ["a"], rows := [[("a", Value.vint 1)]] } : DataFrame).rows
            ++ ({ columns := ["a"], rows := [[("a", Value.vint 1)]] } : DataFrame).rows).count
            [("a", Value.vint 1)] :=
  ⟨(smart_sync_exception_fallback_duplicates (fun _ => Except.error "hash failure")
      { columns := ["a"], rows := [[("a", Value.vint 1)]] }
      { columns := ["a"], rows := [[("a", Value.vint 1)]] }
      "hash failure" rfl).1,
   (smart_sync_exception_fallback_duplicates (fun _ => Except.error "hash failure")
      { columns := ["a"], rows := [[("a", Value.vint 1)]] }
      { columns := ["a"], rows := [[("a", Value.vint 1)]] }
      "hash failure" rfl).2 [("a", Value.vint 1)] (by decide) (by decide)⟩

/-- C8: a per-table exception during read or load is caught at table
    granularity, counted in failed_syncs with its error text captured, and
    the loop proceeds; for three non-system tables where the second read
    raises and the others succeed, the third table is still attempted and
    succeeds, and the summary shows successful_syncs = 2 (hence at least 2)
    and failed_syncs = 1. -/
theorem full_sync_failure_isolation :
    ∀ (t1 t2 t3 : TableSpec)
      (read_table : TableSpec → Except String (List Int))
      (load_table : TableSpec → List Int → Except String Unit)
      (e : String) (rows1 rows3 : List Int),
      should_skip_table t1.table_schem t1.table_name = false →
      should_skip_table t2.table_schem t2.table_name = false →
      should_skip_table t3.table_schem t3.table_name = false →
      read_table t1 = Except.ok rows1 →
      read_table t2 = Except.error e →
      read_table t3 = Except.ok rows3 →
      load_table t1 rows1 = Except.ok () →
      load_table t3 rows3 = Except.ok () →
      full_sync_database read_table load_table [t1, t2, t3]
        = { processed_count := 2, successful_syncs := 2, failed_syncs := 1,
            total_rows_processed := rows1.length + rows3.length,
            attempted := [t1, t2, t3], errors := [(t2, e)] }
      ∧ t3 ∈ (full_sync_database read_table load_table [t1, t2, t3]).attempted
      ∧ 2 ≤ (full_sync_database read_table load_table [t1, t2, t3]).successful_syncs
      ∧ (full_sync_database read_table load_table [t1, t2, t3]).failed_syncs = 1 := by
  intro t1 t2 t3 read_table load_table e rows1 rows3
  intro hskip1 hskip2 hskip3 hr1 hr2 hr3 hl1 hl3
  have hmain : full_sync_database read_table load_table [t1, t2, t3]
      = { processed_count := 2, successful_syncs := 2, failed_syncs := 1,
          total_rows_processed := rows1.length + rows3.length,
          attempted := [t1, t2, t3], errors := [(t2, e)] } := by
    simp [full_sync_database, full_sync_step, hskip1, hskip2, hskip3,
      hr1, hr2, hr3, hl1, hl3]
  refine ⟨hmain, ?_, ?_, ?_⟩
  · rw [hmain]; simp
  · rw [hmain]
  · rw [hmain]

/-- Witness for C8: three concrete dbo tables where the read of the second
    raises and the others read two rows each and load cleanly. -/
theorem full_sync_failure_isolation_witness :
    full_sync_database
        (fun t => if t = { table_schem := "dbo", table_name := "t2" }
                  then Except.error "read failed" else Except.ok [1, 2])
        (fun _ _ => Except.ok ())
        [{ table_schem := "dbo", table_name := "t1" },
         { table_schem := "dbo", table_name := "t2" },
         { table_schem := "dbo", table_name := "t3" }]
      = { processed_count := 2, successful_syncs := 2, failed_syncs := 1,
          total_rows_processed := 4,
          attempted := [{ table_schem := "dbo", table_name := "t1" },
                        { table_schem := "dbo", table_name := "t2" },
                        { table_schem := "dbo", table_name := "t3" }],
          errors := [({ table_schem := "dbo", table_name := "t2" }, "read failed")] } :=
  (full_sync_failure_isolation
    { table_schem := "dbo", table_name := "t1" }
    { table_schem := "dbo", table_name := "t2" }
    { table_schem := "dbo", table_name := "t3" }
    (fun t => if t = { table_schem := "dbo", table_name := "t2" }
              then Except.error "read failed" else Except.ok [1, 2])
    (fun _ _ => Except.ok ())
    "read failed" [1, 2] [1, 2]
    (by decide) (by decide) (by decide) rfl rfl rfl rfl rfl).1

/-- C9: a server whose user-database discovery returns the empty list makes
    process_sql_server_hybrid return None instead of a summary dictionary,
    so the aggregation in main raises AttributeError on summary.get and the
    run falls into the top-level exception handler (FAILED end) instead of
    producing a per-server summary with zeroed counts. -/
theorem process_no_databases_returns_none :
    ∀ (run_databases : List String → ServerSummary) (rest : List (List String)),
      process_sql_server_hybrid [] run_databases = none
      ∧ main_run ([] :: rest) run_databases
          = MainOutcome.failed
              "AttributeError: NoneType object has no attribute get" := by
  intro run_databases rest
  exact ⟨rfl, rfl⟩

end HybridSync
